import Mathlib

/-!
Verification development for a two-stage Spotify listening-history pipeline:
a collector Lambda (`lambda.py`) that fetches recently played tracks and
writes them to S3 in two formats, and a Glue job (`glue-job.py`) that
deduplicates the resulting table on the `played_at` column.

The Python sources are shallowly embedded: JSON payloads become an inductive
`Json` value type, Python dictionary/index access becomes `Except`-valued
accessors (a failed access models the raised `KeyError`/`IndexError`/
`TypeError`), and the external collaborators (Parameter Store, the Spotify
API, S3 `put_object`) become oracle inputs recorded in an explicit trace.
-/

set_option autoImplicit false

/-- A JSON value, as produced by parsing an API payload.  Python `dict`s are
association lists (API payloads carry no duplicate keys). -/
inductive Json where
  | null : Json
  | bool (b : Bool) : Json
  | num (n : Int) : Json
  | str (s : String) : Json
  | arr (elems : List Json) : Json
  | obj (fields : List (String × Json)) : Json

/-- `d[k]` on a Python dict: `KeyError` when the key is absent, `TypeError`
when the value is not a dict at all. -/
def Json.getKey : Json → String → Except String Json
  | .obj fields, k =>
    match fields.find? (fun p => p.1 == k) with
    | some p => .ok p.2
    | none => .error ("KeyError: " ++ k)
  | _, k => .error ("TypeError: value for key " ++ k ++ " is not subscriptable")

/-- `d.get(k, default)` on a Python dict. -/
def Json.getD (j : Json) (k : String) (dflt : Json) : Except String Json :=
  match j with
  | .obj fields =>
    match fields.find? (fun p => p.1 == k) with
    | some p => .ok p.2
    | none => .ok dflt
  | _ => .error "AttributeError: get"

/-- `l[i]` on a Python list: `IndexError` when out of range. -/
def Json.getIdx : Json → Nat → Except String Json
  | .arr elems, i =>
    match elems.get? i with
    | some e => .ok e
    | none => .error "IndexError: list index out of range"
  | _, _ => .error "TypeError: not a list"

/-- Coerce to a string value (string slicing in Python requires one). -/
def Json.asStr : Json → Except String String
  | .str s => .ok s
  | _ => .error "TypeError: not a string"

/-- View a JSON value as a Python list for iteration. -/
def Json.asArr : Json → Except String (List Json)
  | .arr elems => .ok elems
  | _ => .error "TypeError: not a list"

/-- Python slice `s[:b]`. -/
def pySliceTo (s : String) (b : Nat) : String := ⟨s.data.take b⟩

/-- Python slice `s[a:b]` with `a ≤ b`. -/
def pySlice (s : String) (a b : Nat) : String := ⟨(s.data.drop a).take (b - a)⟩

/-- Boolean string-prefix test (list-of-characters based). -/
def strIsPrefixOfB (p s : String) : Bool := List.isPrefixOf p.data s.data

/-- One normalized play record, the flat dict built in `get_recent_tracks`.
Fields copied verbatim from the payload stay `Json`; `played_at` is a string
because the code slices it, and the derived fields are its slices. -/
structure PlayRecord where
  track_id : Json
  name : Json
  artist : Json
  played_at : String
  album : Json
  duration_ms : Json
  popularity : Json
  explicit : Json
  artist_id : Json
  album_id : Json
  release_date : Json
  total_tracks : Json
  played_date : String
  played_hour : String
  collection_timestamp : String

/-- Normalization of one API item: the dict literal of `get_recent_tracks`,
with accesses performed in the literal's evaluation order.  `now` stands for
`datetime.now().isoformat()`.  Any failed access aborts with that error,
exactly as the corresponding Python exception would. -/
def normalizeItem (item : Json) (now : String) : Except String PlayRecord :=
  match item.getKey "track" with
  | .error e => .error e
  | .ok track =>
  match track.getKey "id" with
  | .error e => .error e
  | .ok track_id =>
  match track.getKey "name" with
  | .error e => .error e
  | .ok trackName =>
  match track.getKey "artists" with
  | .error e => .error e
  | .ok artists =>
  match artists.getIdx 0 with
  | .error e => .error e
  | .ok artist0 =>
  match artist0.getKey "name" with
  | .error e => .error e
  | .ok artistName =>
  match item.getKey "played_at" with
  | .error e => .error e
  | .ok playedAtJson =>
  match playedAtJson.asStr with
  | .error e => .error e
  | .ok playedAt =>
  match track.getKey "album" with
  | .error e => .error e
  | .ok album =>
  match album.getKey "name" with
  | .error e => .error e
  | .ok albumName =>
  match track.getKey "duration_ms" with
  | .error e => .error e
  | .ok durationMs =>
  match track.getKey "popularity" with
  | .error e => .error e
  | .ok popularity =>
  match track.getKey "explicit" with
  | .error e => .error e
  | .ok explicitFlag =>
  match artist0.getKey "id" with
  | .error e => .error e
  | .ok artistId =>
  match album.getKey "id" with
  | .error e => .error e
  | .ok albumId =>
  match album.getKey "release_date" with
  | .error e => .error e
  | .ok releaseDate =>
  match album.getKey "total_tracks" with
  | .error e => .error e
  | .ok totalTracks =>
  .ok {
    track_id := track_id
    name := trackName
    artist := artistName
    played_at := playedAt
    album := albumName
    duration_ms := durationMs
    popularity := popularity
    explicit := explicitFlag
    artist_id := artistId
    album_id := albumId
    release_date := releaseDate
    total_tracks := totalTracks
    played_date := pySliceTo playedAt 10
    played_hour := pySlice playedAt 11 13
    collection_timestamp := now }

/-- The `for item in items` loop of `get_recent_tracks`: appends the
normalization of each item in order; the first exception aborts the batch. -/
def normalizeAll (items : List Json) (now : String) : Except String (List PlayRecord) :=
  match items with
  | [] => .ok []
  | it :: rest =>
    match normalizeItem it now with
    | .error e => .error e
    | .ok r =>
      match normalizeAll rest now with
      | .error e => .error e
      | .ok rs => .ok (r :: rs)

/-- `get_recent_tracks`: the whole body sits in a `try` whose handler
returns `[]`, so any error (failed API call included, via the `apiResult`
oracle) degrades to the empty list.  An empty `items` also returns `[]`. -/
def get_recent_tracks (apiResult : Except String Json) (now : String) : List PlayRecord :=
  match apiResult with
  | .error _ => []
  | .ok results =>
    match results.getD "items" (Json.arr []) with
    | .error _ => []
    | .ok itemsJson =>
      match itemsJson.asArr with
      | .error _ => []
      | .ok items =>
        if items.isEmpty then []
        else
          match normalizeAll items now with
          | .error _ => []
          | .ok recs => recs

/-! ### Serialization (`json.dumps`) -/

/-- `str.join` in Python. -/
def joinWith (sep : String) : List String → String
  | [] => ""
  | [s] => s
  | s :: rest@(_ :: _) => s ++ sep ++ joinWith sep rest

/-- JSON string escaping for one character. -/
def escapeChar (c : Char) : List Char :=
  if c = '\\' then ['\\', '\\']
  else if c = '"' then ['\\', '"']
  else if c = '\n' then ['\\', 'n']
  else if c = '\t' then ['\\', 't']
  else if c = '\r' then ['\\', 'r']
  else [c]

/-- JSON string escaping. -/
def escapeString (s : String) : String :=
  ⟨s.data.foldr (fun c acc => escapeChar c ++ acc) []⟩

/-- Decimal digit character. -/
def digitChar10 (n : Nat) : Char :=
  if n = 0 then '0' else if n = 1 then '1' else if n = 2 then '2'
  else if n = 3 then '3' else if n = 4 then '4' else if n = 5 then '5'
  else if n = 6 then '6' else if n = 7 then '7' else if n = 8 then '8'
  else '9'

/-- Decimal digits of a natural number, most significant first (`[]` for 0). -/
def natDigits (n : Nat) : List Char :=
  if n < 10 then (if n = 0 then [] else [digitChar10 n])
  else natDigits (n / 10) ++ [digitChar10 (n % 10)]
termination_by n
decreasing_by
  simp_wf
  omega

/-- Decimal rendering of a natural number. -/
def natRepr (n : Nat) : String :=
  if n = 0 then "0" else ⟨natDigits n⟩

/-- Decimal rendering of an integer, as Python prints an `int`. -/
def intRepr : Int → String
  | .ofNat n => natRepr n
  | .negSucc n => "-" ++ natRepr (n + 1)

mutual

/-- Compact JSON rendering: `json.dumps(x, ensure_ascii=False)` with the
default separators `", "` and `": "`. -/
def Json.render : Json → String
  | .null => "null"
  | .bool b => if b then "true" else "false"
  | .num n => intRepr n
  | .str s => "\"" ++ escapeString s ++ "\""
  | .arr elems => "[" ++ joinWith ", " (Json.renderList elems) ++ "]"
  | .obj fields => "\x7b" ++ joinWith ", " (Json.renderFields fields) ++ "\x7d"

/-- Renders each array element. -/
def Json.renderList : List Json → List String
  | [] => []
  | j :: js => Json.render j :: Json.renderList js

/-- Renders each `"key": value` member. -/
def Json.renderFields : List (String × Json) → List String
  | [] => []
  | (k, v) :: fs => ("\"" ++ escapeString k ++ "\": " ++ Json.render v) :: Json.renderFields fs

end

/-- `n` spaces. -/
def spaces (n : Nat) : String := ⟨List.replicate n ' '⟩

mutual

/-- Indented JSON rendering: `json.dumps(x, ensure_ascii=False, indent=2)`
(item separator `","` + newline, key separator `": "`). -/
def Json.renderPretty : Nat → Json → String
  | _, .null => "null"
  | _, .bool b => if b then "true" else "false"
  | _, .num n => intRepr n
  | _, .str s => "\"" ++ escapeString s ++ "\""
  | _, .arr [] => "[]"
  | ind, .arr elems@(_ :: _) =>
    "[\n" ++ joinWith ",\n" (Json.renderPrettyList (ind + 2) elems) ++ "\n" ++ spaces ind ++ "]"
  | _, .obj [] => "\x7b\x7d"
  | ind, .obj fields@(_ :: _) =>
    "\x7b\n" ++ joinWith ",\n" (Json.renderPrettyFields (ind + 2) fields) ++ "\n" ++ spaces ind ++ "\x7d"

/-- Renders each array element at the given indentation. -/
def Json.renderPrettyList : Nat → List Json → List String
  | _, [] => []
  | ind, j :: js => (spaces ind ++ Json.renderPretty ind j) :: Json.renderPrettyList ind js

/-- Renders each `"key": value` member at the given indentation. -/
def Json.renderPrettyFields : Nat → List (String × Json) → List String
  | _, [] => []
  | ind, (k, v) :: fs =>
    (spaces ind ++ "\"" ++ escapeString k ++ "\": " ++ Json.renderPretty ind v) ::
      Json.renderPrettyFields ind fs

end

/-- The dict a `PlayRecord` serializes as, keys in insertion order. -/
def recordToJson (r : PlayRecord) : Json :=
  Json.obj [
    ("track_id", r.track_id),
    ("name", r.name),
    ("artist", r.artist),
    ("played_at", .str r.played_at),
    ("album", r.album),
    ("duration_ms", r.duration_ms),
    ("popularity", r.popularity),
    ("explicit", r.explicit),
    ("artist_id", r.artist_id),
    ("album_id", r.album_id),
    ("release_date", r.release_date),
    ("total_tracks", r.total_tracks),
    ("played_date", .str r.played_date),
    ("played_hour", .str r.played_hour),
    ("collection_timestamp", .str r.collection_timestamp)]

/-- The keys of a JSON dict. -/
def Json.objKeys : Json → List String
  | .obj fields => fields.map Prod.fst
  | _ => []

/-- The field names every normalized record carries. -/
def requiredRecordFields : List String :=
  ["track_id", "name", "artist", "played_at", "album", "duration_ms",
   "popularity", "explicit", "artist_id", "album_id", "release_date",
   "total_tracks", "played_date", "played_hour", "collection_timestamp"]

/-- Body of the JSONL object written by `save_json_for_glue`:
`"\n".join(json.dumps(track, ensure_ascii=False) for track in tracks)`. -/
def jsonl_content (tracks : List PlayRecord) : String :=
  joinWith "\n" (tracks.map (fun t => Json.render (recordToJson t)))

/-- Body of the object written by `save_regular_json`:
`json.dumps(tracks, ensure_ascii=False, indent=2)`. -/
def regular_json_content (tracks : List PlayRecord) : String :=
  Json.renderPretty 0 (Json.arr (tracks.map recordToJson))

/-! ### Filesystem cache handoff and S3 persistence -/

/-- The two cache locations the handler looks at: the read-only deployment
package (`./.cache`) and the writable `/tmp/.cache`.  `none` models a file
that does not exist. -/
structure CacheFS where
  packaged : Option String
  tmp : Option String

/-- The handoff at the top of `lambda_handler`: copy the packaged seed to
`/tmp` only when `/tmp/.cache` does not exist and the seed does.  The `Bool`
records whether `shutil.copy` ran. -/
def cacheHandoff (fs : CacheFS) : CacheFS × Bool :=
  if fs.tmp.isNone && fs.packaged.isSome then
    ({ fs with tmp := fs.packaged }, true)
  else
    (fs, false)

/-- An object stored in S3 by a `put_object` call of this run. -/
structure S3Object where
  bucket : String
  key : String
  body : String

/-- `_upload_string_to_s3`: attempts a `put_object` (outcome given by the
`putSucceeds` oracle, the `try`/`except` turning failure into `False`) and
returns the success flag together with the updated bucket contents. -/
def upload_string_to_s3 (putSucceeds : Bool) (contentString bucketName key : String)
    (objects : List S3Object) : Bool × List S3Object :=
  if putSucceeds then
    (true, objects ++ [⟨bucketName, key, contentString⟩])
  else
    (false, objects)

/-- Key of the JSONL object, from prefix, date partition and timestamp. -/
def glue_file_name (pfx datePartition timestamp : String) : String :=
  pfx ++ "/" ++ datePartition ++ "/historial_" ++ timestamp ++ ".jsonl"

/-- Key of the human-readable JSON object. -/
def regular_file_name (pfx timestamp : String) : String :=
  pfx ++ "/historial_" ++ timestamp ++ ".json"

/-- `save_json_for_glue`: writes the JSONL body and returns the `s3://` URL
on success, `None` on failure.  `timestamp`/`datePartition` stand for the
`datetime.now()` formattings. -/
def save_json_for_glue (tracks : List PlayRecord) (bucketName : String)
    (putSucceeds : Bool) (timestamp datePartition : String)
    (objects : List S3Object) : Option String × List S3Object :=
  let fileName := glue_file_name "raw/historial" datePartition timestamp
  let s3Url := "s3://" ++ bucketName ++ "/" ++ fileName
  match upload_string_to_s3 putSucceeds (jsonl_content tracks) bucketName fileName objects with
  | (true, objs) => (some s3Url, objs)
  | (false, objs) => (none, objs)

/-- `save_regular_json`: writes the indented JSON body and returns the
`s3://` URL on success, `None` on failure. -/
def save_regular_json (tracks : List PlayRecord) (bucketName : String)
    (putSucceeds : Bool) (timestamp : String)
    (objects : List S3Object) : Option String × List S3Object :=
  let fileName := regular_file_name "processed/historial" timestamp
  let s3Url := "s3://" ++ bucketName ++ "/" ++ fileName
  match upload_string_to_s3 putSucceeds (regular_json_content tracks) bucketName fileName objects with
  | (true, objs) => (some s3Url, objs)
  | (false, objs) => (none, objs)

/-! ### The Lambda handler -/

/-- `str.split('/')` on the character list: groups between slashes. -/
def splitOnSlash : List Char → List (List Char)
  | [] => [[]]
  | c :: rest =>
    let r := splitOnSlash rest
    if c = '/' then [] :: r
    else
      match r with
      | [] => [[c]]
      | g :: gs => (c :: g) :: gs

/-- `param['Name'].split('/')[-1]`. -/
def lastSegment (s : String) : String :=
  ⟨(splitOnSlash s.data).getLastD []⟩

/-- The `all(k in secrets for k in [...])` validation over the dict built
from the Parameter Store response (name ↦ value pairs). -/
def secretsComplete (params : List (String × String)) : Bool :=
  ["client-id", "client-secret", "redirect-uri"].all
    (fun k => (params.map (fun p => lastSegment p.1)).contains k)

/-- The structured value `lambda_handler` returns when it does not raise. -/
structure LambdaResponse where
  statusCode : Nat
  body : String

/-- `json.dumps('Datos guardados correctamente en S3.')`. -/
def successBody : String := Json.render (Json.str "Datos guardados correctamente en S3.")

/-- `json.dumps('No se procesaron nuevas canciones.')`. -/
def noDataBody : String := Json.render (Json.str "No se procesaron nuevas canciones.")

/-- Everything one invocation of the handler consumes: the environment
variables (absent = `KeyError`), the filesystem, and the oracles for the
external collaborators — the Parameter Store response, the Spotify API
response, the outcome of each of the two S3 `put_object` calls — plus the
wall-clock strings the run would format. -/
structure HandlerInput where
  parameterPathVar : Option String
  s3BucketVar : Option String
  fs : CacheFS
  ssmResult : Except String (List (String × String))
  apiResult : Except String Json
  gluePutSucceeds : Bool
  regularPutSucceeds : Bool
  now : String
  timestamp : String
  datePartition : String

/-- Externally observable effects of one invocation: the filesystem after
the handoff, the objects this run wrote to S3, and how many Parameter Store
and Spotify API calls were made. -/
structure HandlerTrace where
  fs : CacheFS
  s3Objects : List S3Object
  ssmCalls : Nat
  apiCalls : Nat

/-- `lambda_handler`.  `.error` models an uncaught exception escaping the
handler; `.ok` models a normal return. -/
def lambda_handler (inp : HandlerInput) : Except String LambdaResponse × HandlerTrace :=
  let fs1 := (cacheHandoff inp.fs).1
  match inp.parameterPathVar with
  | none => (.error "KeyError: PARAMETER_PATH", ⟨fs1, [], 0, 0⟩)
  | some _ =>
  match inp.s3BucketVar with
  | none => (.error "KeyError: S3_BUCKET", ⟨fs1, [], 0, 0⟩)
  | some s3Bucket =>
  match inp.ssmResult with
  | .error e => (.error e, ⟨fs1, [], 1, 0⟩)
  | .ok params =>
  if secretsComplete params then
    let tracks := get_recent_tracks inp.apiResult inp.now
    if tracks.isEmpty then
      (.ok ⟨200, noDataBody⟩, ⟨fs1, [], 1, 1⟩)
    else
      let glueStep := save_json_for_glue tracks s3Bucket inp.gluePutSucceeds
        inp.timestamp inp.datePartition []
      let regularStep := save_regular_json tracks s3Bucket inp.regularPutSucceeds
        inp.timestamp glueStep.2
      if glueStep.1.isSome && regularStep.1.isSome then
        (.ok ⟨200, successBody⟩, ⟨fs1, regularStep.2, 1, 1⟩)
      else
        (.ok ⟨200, noDataBody⟩, ⟨fs1, regularStep.2, 1, 1⟩)
  else
    (.error "ValueError: Faltan secretos (client-id, client-secret, o redirect-uri) en Parameter Store.",
      ⟨fs1, [], 1, 0⟩)

/-! ### The Glue deduplication job -/

/-- `df.dropDuplicates(['played_at'])`, modelled deterministically as
keep-the-first-occurrence of each `played_at` value (the underlying bulk
operation keeps an unspecified one per group). -/
def dropDuplicatesByPlayedAt : List PlayRecord → List PlayRecord
  | [] => []
  | r :: rs =>
    r :: dropDuplicatesByPlayedAt (rs.filter (fun x => x.played_at != r.played_at))
termination_by l => l.length
decreasing_by
  simp_wf
  exact Nat.lt_succ_of_le (List.length_filter_le _ _)

/-- `deduplicated_df = df.dropDuplicates([DEDUP_COLUMN])` with
`DEDUP_COLUMN = "played_at"`. -/
def deduplicated_df (df : List PlayRecord) : List PlayRecord :=
  dropDuplicatesByPlayedAt df

/-! ### Sample data and basic helpers -/

/-- Success test for `Except`, as a `Bool`. -/
def isOkE {ε α : Type} : Except ε α → Bool
  | .ok _ => true
  | .error _ => false

/-- A fully populated API item, as the Spotify endpoint returns it. -/
def sampleItem : Json :=
  Json.obj [
    ("track", Json.obj [
      ("id", .str "track-1"),
      ("name", .str "Song One"),
      ("artists", .arr [Json.obj [("name", .str "Artist A"), ("id", .str "artist-1")]]),
      ("album", Json.obj [
        ("name", .str "Album X"),
        ("id", .str "album-1"),
        ("release_date", .str "2020-05-05"),
        ("total_tracks", .num 12)]),
      ("duration_ms", .num 215000),
      ("popularity", .num 64),
      ("explicit", .bool false)]),
    ("played_at", .str "2024-01-02T13:45:00Z")]

/-- A second sample item with a different `played_at`. -/
def sampleItem2 : Json :=
  Json.obj [
    ("track", Json.obj [
      ("id", .str "track-2"),
      ("name", .str "Song Two"),
      ("artists", .arr [Json.obj [("name", .str "Artist B"), ("id", .str "artist-2")]]),
      ("album", Json.obj [
        ("name", .str "Album Y"),
        ("id", .str "album-2"),
        ("release_date", .str "2021-06-06"),
        ("total_tracks", .num 9)]),
      ("duration_ms", .num 180000),
      ("popularity", .num 40),
      ("explicit", .bool true)]),
    ("played_at", .str "2024-01-03T07:05:00Z")]

/-- A record with a given `played_at`, all payload fields null. -/
def mkRecord (playedAt : String) : PlayRecord where
  track_id := Json.null
  name := Json.null
  artist := Json.null
  played_at := playedAt
  album := Json.null
  duration_ms := Json.null
  popularity := Json.null
  explicit := Json.null
  artist_id := Json.null
  album_id := Json.null
  release_date := Json.null
  total_tracks := Json.null
  played_date := pySliceTo playedAt 10
  played_hour := pySlice playedAt 11 13
  collection_timestamp := "2024-01-05T00:00:00"

/-- `true` iff the string contains no newline character. -/
def noNewlineB (s : String) : Bool := s.data.all (fun c => c != '\n')

/-- A handler input with a complete configuration and secret set, whose API
response and write outcomes are the given ones. -/
def mkInput (api : Except String Json) (glueOk regularOk : Bool) : HandlerInput where
  parameterPathVar := some "/spotify"
  s3BucketVar := some "bucket-1"
  fs := ⟨some "seed", none⟩
  ssmResult := .ok [("/spotify/client-id", "cid"), ("/spotify/client-secret", "cs"),
    ("/spotify/redirect-uri", "uri")]
  apiResult := api
  gluePutSucceeds := glueOk
  regularPutSucceeds := regularOk
  now := "2024-06-01T00:00:00"
  timestamp := "20240601_000000"
  datePartition := "year=2024/month=06/day=01"

/-! ### Helper lemmas -/

/-- An initial 10-character slice is a string prefix. -/
lemma strIsPrefixOfB_pySliceTo (s : String) (b : Nat) :
    strIsPrefixOfB (pySliceTo s b) s = true := by
  show List.isPrefixOf (s.data.take b) s.data = true
  exact List.isPrefixOf_iff_prefix.2 (List.take_prefix b s.data)

/-- Shape of a successful normalization: the derived fields are the slices
of the record's own `played_at`, and the collection timestamp is `now`. -/
lemma normalizeItem_ok_shape (item : Json) (now : String) (r : PlayRecord)
    (h : normalizeItem item now = .ok r) :
    r.played_date = pySliceTo r.played_at 10 ∧
    r.played_hour = pySlice r.played_at 11 13 ∧
    r.collection_timestamp = now := by
  unfold normalizeItem at h
  repeat' split at h
  all_goals cases h
  exact ⟨rfl, rfl, rfl⟩

/-- A successful batch has one output record per input item. -/
lemma normalizeAll_length (now : String) :
    ∀ (items : List Json) (recs : List PlayRecord),
      normalizeAll items now = .ok recs → recs.length = items.length := by
  intro items
  induction items with
  | nil => intro recs h; cases h; rfl
  | cons it rest ih =>
    intro recs h
    unfold normalizeAll at h
    cases hit : normalizeItem it now with
    | error e => rw [hit] at h; cases h
    | ok r =>
      rw [hit] at h
      cases hrest : normalizeAll rest now with
      | error e => rw [hrest] at h; cases h
      | ok rs =>
        rw [hrest] at h
        cases h
        simp [ih rs hrest]

/-- A successful batch normalizes the `i`-th item to the `i`-th record. -/
lemma normalizeAll_get (now : String) :
    ∀ (items : List Json) (recs : List PlayRecord),
      normalizeAll items now = .ok recs →
      ∀ (i : Nat) (hi : i < items.length) (hr : i < recs.length),
        normalizeItem (items.get ⟨i, hi⟩) now = .ok (recs.get ⟨i, hr⟩) := by
  intro items
  induction items with
  | nil => intro recs h i hi hr; exact absurd hi (by simp)
  | cons it rest ih =>
    intro recs h i hi hr
    unfold normalizeAll at h
    cases hit : normalizeItem it now with
    | error e => rw [hit] at h; cases h
    | ok r =>
      rw [hit] at h
      cases hrest : normalizeAll rest now with
      | error e => rw [hrest] at h; cases h
      | ok rs =>
        rw [hrest] at h
        cases h
        cases i with
        | zero => simpa using hit
        | succ j =>
          exact ih rs hrest j (by simpa using hi) (by simpa using hr)

/-- Every record of a successful batch comes from some input item. -/
lemma normalizeAll_mem (now : String) :
    ∀ (items : List Json) (recs : List PlayRecord),
      normalizeAll items now = .ok recs →
      ∀ r ∈ recs, ∃ it ∈ items, normalizeItem it now = .ok r := by
  intro items
  induction items with
  | nil => intro recs h r hr; cases h; simp at hr
  | cons it rest ih =>
    intro recs h r hr
    unfold normalizeAll at h
    cases hit : normalizeItem it now with
    | error e => rw [hit] at h; cases h
    | ok r0 =>
      rw [hit] at h
      cases hrest : normalizeAll rest now with
      | error e => rw [hrest] at h; cases h
      | ok rs =>
        rw [hrest] at h
        cases h
        rcases List.mem_cons.1 hr with h0 | hmem
        · exact ⟨it, by simp, by rw [hit, h0]⟩
        · obtain ⟨it', hit', hok⟩ := ih rs hrest r hmem
          exact ⟨it', by simp [hit'], hok⟩

/-- A batch of individually valid items normalizes successfully. -/
lemma normalizeAll_ok (now : String) :
    ∀ (items : List Json), (∀ it ∈ items, isOkE (normalizeItem it now) = true) →
      ∃ recs, normalizeAll items now = .ok recs := by
  intro items
  induction items with
  | nil => intro _; exact ⟨[], rfl⟩
  | cons it rest ih =>
    intro hall
    have hhd : isOkE (normalizeItem it now) = true := hall it (by simp)
    cases hit : normalizeItem it now with
    | error e => rw [hit] at hhd; simp [isOkE] at hhd
    | ok r =>
      obtain ⟨rs, hrs⟩ := ih (fun x hx => hall x (by simp [hx]))
      exact ⟨r :: rs, by unfold normalizeAll; rw [hit, hrs]⟩

/-- An error on any item makes the whole batch error. -/
lemma normalizeAll_error_of_mem (now : String) :
    ∀ (pre post : List Json) (item : Json),
      isOkE (normalizeItem item now) = false →
      isOkE (normalizeAll (pre ++ item :: post) now) = false := by
  intro pre
  induction pre with
  | nil =>
    intro post item h
    unfold normalizeAll
    cases hit : normalizeItem item now with
    | error e => simp [hit, isOkE]
    | ok r => rw [hit] at h; simp [isOkE] at h
  | cons p rest ih =>
    intro post item h
    have htail := ih post item h
    show isOkE (normalizeAll (p :: (rest ++ item :: post)) now) = false
    unfold normalizeAll
    cases hp : normalizeItem p now with
    | error e => simp [hp, isOkE]
    | ok r =>
      cases htl : normalizeAll (rest ++ item :: post) now with
      | error e => simp [hp, htl, isOkE]
      | ok rs => rw [htl] at htail; simp [isOkE] at htail

/-- Computation of `get_recent_tracks` on a well-shaped response whose item
batch normalizes successfully. -/
lemma get_recent_tracks_items (items : List Json) (now : String) (recs : List PlayRecord)
    (h : normalizeAll items now = .ok recs) :
    get_recent_tracks (.ok (Json.obj [("items", Json.arr items)])) now = recs := by
  cases items with
  | nil =>
    cases h
    unfold get_recent_tracks Json.getD Json.asArr
    simp [List.find?, beq_self_eq_true]
  | cons a l =>
    have hempty : (a :: l).isEmpty = false := rfl
    unfold get_recent_tracks Json.getD Json.asArr
    simp [List.find?, beq_self_eq_true, hempty, h]

/-! ### Deduplication lemmas -/

/-- Membership of a value among the `played_at` keys surviving the filter
that discards the key `w`. -/
lemma mem_map_filter_played (rs : List PlayRecord) (w v : String) :
    (v ∈ (rs.filter (fun x => x.played_at != w)).map (fun r => r.played_at)) ↔
      (v ∈ rs.map (fun r => r.played_at) ∧ v ≠ w) := by
  simp only [List.mem_map, List.mem_filter, bne_iff_ne, ne_eq]
  constructor
  · rintro ⟨a, ⟨ha, hne⟩, hv⟩
    exact ⟨⟨a, ha, hv⟩, hv ▸ hne⟩
  · rintro ⟨⟨a, ha, hv⟩, hne⟩
    exact ⟨a, ⟨ha, hv ▸ hne⟩, hv⟩

/-- After deduplication, each key value occurring in the input keeps exactly
one row, and absent values keep none. -/
lemma dedup_filter_count (v : String) :
    ∀ (df : List PlayRecord),
      ((dropDuplicatesByPlayedAt df).filter (fun r => r.played_at == v)).length
        = if v ∈ df.map (fun r => r.played_at) then 1 else 0 := by
  intro df
  induction df using dropDuplicatesByPlayedAt.induct with
  | case1 => simp [dropDuplicatesByPlayedAt]
  | case2 r rs ih =>
    rw [dropDuplicatesByPlayedAt, List.filter_cons]
    by_cases hv : r.played_at = v
    · subst hv
      have hnot : r.played_at ∉ (rs.filter (fun x => x.played_at != r.played_at)).map
          (fun x => x.played_at) := by
        rw [mem_map_filter_played]
        rintro ⟨-, hne⟩
        exact hne rfl
      have hmem : r.played_at ∈ (r :: rs).map (fun x => x.played_at) := by simp
      simp only [beq_self_eq_true, if_true, List.length_cons]
      rw [ih, if_neg hnot, if_pos hmem]
    · have hbeq : (r.played_at == v) = false := beq_eq_false_iff_ne.2 hv
      rw [hbeq]
      simp only [Bool.false_eq_true, if_false]
      rw [ih]
      by_cases hmem : v ∈ rs.map (fun x => x.played_at)
      · have h1 : v ∈ (rs.filter (fun x => x.played_at != r.played_at)).map
            (fun x => x.played_at) :=
          (mem_map_filter_played rs r.played_at v).2 ⟨hmem, fun h => hv h.symm⟩
        have h2 : v ∈ (r :: rs).map (fun x => x.played_at) := by
          simp only [List.map_cons, List.mem_cons]
          exact Or.inr (by simpa using hmem)
        rw [if_pos h1, if_pos h2]
      · have h1 : v ∉ (rs.filter (fun x => x.played_at != r.played_at)).map
            (fun x => x.played_at) :=
          fun h => hmem ((mem_map_filter_played rs r.played_at v).1 h).1
        have h2 : v ∉ (r :: rs).map (fun x => x.played_at) := by
          simp only [List.map_cons, List.mem_cons]
          rintro (h | h)
          · exact hv h.symm
          · exact hmem (by simpa using h)
        rw [if_neg h1, if_neg h2]

/-! ### Newline-freedom of compact JSON rendering -/

/-- Concatenation preserves newline-freedom. -/
lemma noNewlineB_append (a b : String) :
    noNewlineB (a ++ b) = (noNewlineB a && noNewlineB b) := by
  simp [noNewlineB, String.data_append, List.all_append]

/-- Escaping one character yields no newline. -/
lemma escapeChar_noNewline (c : Char) :
    (escapeChar c).all (fun x => x != '\n') = true := by
  unfold escapeChar
  repeat' split
  all_goals simp_all [bne_iff_ne]

/-- Escaped strings contain no newline. -/
lemma escapeString_noNewline (s : String) : noNewlineB (escapeString s) = true := by
  show (s.data.foldr (fun c acc => escapeChar c ++ acc) []).all (fun c => c != '\n') = true
  induction s.data with
  | nil => rfl
  | cons c cs ih =>
    simp only [List.foldr_cons, List.all_append, ih, escapeChar_noNewline, Bool.and_self]

/-- Decimal digit characters are not newlines. -/
lemma digitChar10_noNewline (n : Nat) : (digitChar10 n != '\n') = true := by
  unfold digitChar10
  repeat' split
  all_goals decide

/-- Digit strings contain no newline. -/
lemma natDigits_noNewline (n : Nat) : (natDigits n).all (fun c => c != '\n') = true := by
  induction n using Nat.strong_induction_on with
  | _ n ih =>
    rw [natDigits]
    split
    · split
      · rfl
      · simp [digitChar10_noNewline]
    · rename_i h
      rw [List.all_append]
      have hlt : n / 10 < n := Nat.div_lt_self (by omega) (by omega)
      simp [ih (n / 10) hlt, digitChar10_noNewline]

/-- `natRepr` contains no newline. -/
lemma natRepr_noNewline (n : Nat) : noNewlineB (natRepr n) = true := by
  unfold natRepr
  split
  · decide
  · exact natDigits_noNewline n

/-- `intRepr` contains no newline. -/
lemma intRepr_noNewline (n : Int) : noNewlineB (intRepr n) = true := by
  cases n with
  | ofNat m => exact natRepr_noNewline m
  | negSucc m =>
    show noNewlineB ("-" ++ natRepr (m + 1)) = true
    rw [noNewlineB_append, natRepr_noNewline]
    decide

/-- Joining newline-free parts with a newline-free separator is newline-free. -/
lemma joinWith_noNewline (sep : String) (hsep : noNewlineB sep = true) :
    ∀ (l : List String), (∀ s ∈ l, noNewlineB s = true) →
      noNewlineB (joinWith sep l) = true := by
  intro l
  induction l with
  | nil => intro _; rw [joinWith]; decide
  | cons s rest ih =>
    intro hall
    cases rest with
    | nil => rw [joinWith]; exact hall s (by simp)
    | cons t ts =>
      rw [joinWith, noNewlineB_append, noNewlineB_append]
      simp [hall s (by simp), hsep, ih (fun x hx => hall x (by simp [hx]))]

mutual

/-- Compact rendering of any JSON value contains no newline. -/
lemma render_noNewline : (j : Json) → noNewlineB (Json.render j) = true
  | .null => by decide
  | .bool b => by cases b <;> decide
  | .num n => intRepr_noNewline n
  | .str s => by
    show noNewlineB ("\"" ++ escapeString s ++ "\"") = true
    rw [noNewlineB_append, noNewlineB_append, escapeString_noNewline s]
    decide
  | .arr elems =>
    have h := renderList_noNewline elems
    by
      show noNewlineB ("[" ++ joinWith ", " (Json.renderList elems) ++ "]") = true
      rw [noNewlineB_append, noNewlineB_append,
        joinWith_noNewline ", " (by decide) _ h]
      decide
  | .obj fields =>
    have h := renderFields_noNewline fields
    by
      show noNewlineB ("\x7b" ++ joinWith ", " (Json.renderFields fields) ++ "\x7d") = true
      rw [noNewlineB_append, noNewlineB_append,
        joinWith_noNewline ", " (by decide) _ h]
      decide

/-- Rendered array elements contain no newline. -/
lemma renderList_noNewline : (l : List Json) → ∀ s ∈ Json.renderList l, noNewlineB s = true
  | [] => by simp [Json.renderList]
  | j :: js =>
    have hj := render_noNewline j
    have hjs := renderList_noNewline js
    by
      intro s hs
      rw [Json.renderList] at hs
      rcases List.mem_cons.1 hs with h | h
      · exact h ▸ hj
      · exact hjs s h

/-- Rendered object members contain no newline. -/
lemma renderFields_noNewline :
    (fs : List (String × Json)) → ∀ s ∈ Json.renderFields fs, noNewlineB s = true
  | [] => by simp [Json.renderFields]
  | (k, v) :: fs =>
    have hv := render_noNewline v
    have hfs := renderFields_noNewline fs
    by
      intro s hs
      rw [Json.renderFields] at hs
      rcases List.mem_cons.1 hs with h | h
      · subst h
        rw [noNewlineB_append, noNewlineB_append, noNewlineB_append,
          escapeString_noNewline k, hv]
        decide
      · exact hfs s h

end

/-! ### Claims -/

/-- Claim C1, counterexample: on a valid one-item response the single
normalized record has `played_hour = "13"`, which is not a prefix of its
`played_at` string `"2024-01-02T13:45:00Z"` — so the claim that both derived
fields are prefixes of `played_at` is false. -/
theorem C1_played_hour_not_a_prefix :
    ((get_recent_tracks (.ok (Json.obj [("items", Json.arr [sampleItem])]))
        "2024-06-01T00:00:00").map
      (fun r => (r.played_at, r.played_hour, strIsPrefixOfB r.played_hour r.played_at)))
      = [("2024-01-02T13:45:00Z", "13", false)] := by decide

/-- Claim C1 (amended): for every valid API response with `N` items
(`0 ≤ N ≤ 50`, each item normalizing successfully), `get_recent_tracks`
produces exactly `N` records, each carrying all required fields; in each
record `played_date` is a prefix of that record's own `played_at`, and
`played_hour` is the two-character slice of `played_at` at positions 11–13
(the hour component) — not a prefix. -/
theorem C1_collector_normalization (items : List Json) (now : String)
    (_hlen : items.length ≤ 50)
    (hvalid : ∀ it ∈ items, isOkE (normalizeItem it now) = true) :
    (get_recent_tracks (.ok (Json.obj [("items", Json.arr items)])) now).length
      = items.length ∧
    ∀ r ∈ get_recent_tracks (.ok (Json.obj [("items", Json.arr items)])) now,
      (recordToJson r).objKeys = requiredRecordFields ∧
      strIsPrefixOfB r.played_date r.played_at = true ∧
      r.played_hour = pySlice r.played_at 11 13 := by
  obtain ⟨recs, hrecs⟩ := normalizeAll_ok now items hvalid
  rw [get_recent_tracks_items items now recs hrecs]
  refine ⟨normalizeAll_length now items recs hrecs, ?_⟩
  intro r hr
  obtain ⟨it, -, hok⟩ := normalizeAll_mem now items recs hrecs r hr
  obtain ⟨hdate, hhour, -⟩ := normalizeItem_ok_shape it now r hok
  exact ⟨rfl, by rw [hdate]; exact strIsPrefixOfB_pySliceTo _ _, hhour⟩

/-- Witness for C1: the amended theorem applied to the one-item response. -/
theorem C1_collector_normalization_witness :
    (get_recent_tracks (.ok (Json.obj [("items", Json.arr [sampleItem])]))
        "2024-06-01T00:00:00").length = [sampleItem].length ∧
    ∀ r ∈ get_recent_tracks (.ok (Json.obj [("items", Json.arr [sampleItem])]))
        "2024-06-01T00:00:00",
      (recordToJson r).objKeys = requiredRecordFields ∧
      strIsPrefixOfB r.played_date r.played_at = true ∧
      r.played_hour = pySlice r.played_at 11 13 :=
  C1_collector_normalization [sampleItem] "2024-06-01T00:00:00" (by decide) (by decide)

/-- Claim C2: the Deduplicator keeps exactly one row per distinct `played_at`
value present in the input (and none for absent values); in particular for
rows keyed `t1, t1, t2` the output has one `t1` row, one `t2` row, and two
rows in total. -/
theorem C2_dedup_one_row_per_key :
    (∀ (df : List PlayRecord) (v : String),
      ((deduplicated_df df).filter (fun r => r.played_at == v)).length
        = if v ∈ df.map (fun r => r.played_at) then 1 else 0) ∧
    (∀ r1 r2 r3 : PlayRecord,
      r1.played_at = "t1" → r2.played_at = "t1" → r3.played_at = "t2" →
      ((deduplicated_df [r1, r2, r3]).filter (fun r => r.played_at == "t1")).length = 1 ∧
      ((deduplicated_df [r1, r2, r3]).filter (fun r => r.played_at == "t2")).length = 1 ∧
      (deduplicated_df [r1, r2, r3]).length = 2) := by
  have e1 : (("t1" : String) != "t1") = false := by decide
  have e2 : (("t2" : String) != "t1") = true := by decide
  have e3 : (("t1" : String) == "t1") = true := by decide
  have e4 : (("t2" : String) == "t1") = false := by decide
  have e5 : (("t1" : String) == "t2") = false := by decide
  have e6 : (("t2" : String) == "t2") = true := by decide
  constructor
  · intro df v
    exact dedup_filter_count v df
  · intro r1 r2 r3 h1 h2 h3
    have hd : deduplicated_df [r1, r2, r3] = [r1, r3] := by
      unfold deduplicated_df
      rw [dropDuplicatesByPlayedAt]
      simp only [List.filter_cons, List.filter_nil, h1, h2, h3, e1, e2,
        Bool.false_eq_true, if_false, if_true]
      rw [dropDuplicatesByPlayedAt]
      simp only [List.filter_nil]
      rw [dropDuplicatesByPlayedAt]
    rw [hd]
    simp only [List.filter_cons, List.filter_nil, h1, h3, e3, e4, e5, e6,
      Bool.false_eq_true, if_false, if_true, List.length_cons, List.length_nil]
    exact ⟨trivial, trivial, trivial⟩

/-- Witness for C2: the concrete `t1, t1, t2` table. -/
theorem C2_dedup_one_row_per_key_witness :
    ((deduplicated_df [mkRecord "t1", mkRecord "t1", mkRecord "t2"]).filter
        (fun r => r.played_at == "t1")).length = 1 ∧
    ((deduplicated_df [mkRecord "t1", mkRecord "t1", mkRecord "t2"]).filter
        (fun r => r.played_at == "t2")).length = 1 ∧
    (deduplicated_df [mkRecord "t1", mkRecord "t1", mkRecord "t2"]).length = 2 :=
  C2_dedup_one_row_per_key.2 (mkRecord "t1") (mkRecord "t1") (mkRecord "t2") rfl rfl rfl

/-- Claim C7: on a table whose rows are already duplicate-free on
`played_at`, the Deduplicator returns the table unchanged — `K` rows in,
the same `K` rows out. -/
theorem C7_dedup_idempotent (df : List PlayRecord)
    (h : (df.map (fun r => r.played_at)).Nodup) :
    deduplicated_df df = df ∧ (deduplicated_df df).length = df.length := by
  have heq : ∀ (l : List PlayRecord), (l.map (fun r => r.played_at)).Nodup →
      dropDuplicatesByPlayedAt l = l := by
    intro l
    induction l with
    | nil => intro _; rw [dropDuplicatesByPlayedAt]
    | cons r rs ih =>
      intro hnd
      rw [List.map_cons, List.nodup_cons] at hnd
      rw [dropDuplicatesByPlayedAt]
      have hfilter : rs.filter (fun x => x.played_at != r.played_at) = rs := by
        rw [List.filter_eq_self]
        intro a ha
        rw [bne_iff_ne]
        intro hcontra
        exact hnd.1 (hcontra ▸ List.mem_map_of_mem (fun x => x.played_at) ha)
      rw [hfilter, ih hnd.2]
  refine ⟨heq df h, ?_⟩
  rw [show deduplicated_df df = df from heq df h]

/-- Witness for C7: a two-row duplicate-free table. -/
theorem C7_dedup_idempotent_witness :
    deduplicated_df [mkRecord "t1", mkRecord "t2"] = [mkRecord "t1", mkRecord "t2"] ∧
    (deduplicated_df [mkRecord "t1", mkRecord "t2"]).length
      = [mkRecord "t1", mkRecord "t2"].length :=
  C7_dedup_idempotent [mkRecord "t1", mkRecord "t2"] (by decide)

/-- Claim C3: at startup, when no writable cache exists and a packaged seed
does, the handoff copies the seed exactly once and the writable cache then
holds the seed's content; when a writable cache already exists it is left
untouched and no copy happens; a second handoff after any first one never
copies again; and the handler's resulting filesystem is exactly the handoff
of its input filesystem. -/
theorem C3_cache_handoff (fs : CacheFS) (seed : String) :
    (fs.tmp = none → fs.packaged = some seed →
      cacheHandoff fs = (⟨some seed, some seed⟩, true)) ∧
    (∀ c, fs.tmp = some c → cacheHandoff fs = (fs, false)) ∧
    cacheHandoff (cacheHandoff fs).1 = ((cacheHandoff fs).1, false) ∧
    (∀ inp : HandlerInput, (lambda_handler inp).2.fs = (cacheHandoff inp.fs).1) := by
  obtain ⟨p, t⟩ := fs
  refine ⟨?_, ?_, ?_, ?_⟩
  · intro ht hp
    simp only at ht hp
    subst ht hp
    simp [cacheHandoff]
  · intro c ht
    simp only at ht
    subst ht
    simp [cacheHandoff]
  · cases p <;> cases t <;> simp [cacheHandoff]
  · intro inp
    unfold lambda_handler
    repeat' split
    all_goals try rfl
    all_goals dsimp only []
    all_goals repeat' split
    all_goals rfl

/-- Witness for C3: a seed-only filesystem copies once, a warm filesystem
is untouched, and a second handoff never re-copies. -/
theorem C3_cache_handoff_witness :
    cacheHandoff ⟨some "seed", none⟩ = (⟨some "seed", some "seed"⟩, true) ∧
    cacheHandoff ⟨some "seed", some "old"⟩ = (⟨some "seed", some "old"⟩, false) ∧
    cacheHandoff (cacheHandoff ⟨some "seed", none⟩).1
      = ((cacheHandoff ⟨some "seed", none⟩).1, false) :=
  ⟨(C3_cache_handoff ⟨some "seed", none⟩ "seed").1 rfl rfl,
   (C3_cache_handoff ⟨some "seed", some "old"⟩ "seed").2.1 "old" rfl,
   (C3_cache_handoff ⟨some "seed", none⟩ "seed").2.2.1⟩

/-- Claim C5: in per-item normalization, a missing or malformed required
nested field (`track`, `artists[0]`, `album`, `played_at`) makes
`normalizeItem` return an error for that item — never a handled record —
and that error in turn makes the whole batch loop error. -/
theorem C5_normalization_error_propagation (item : Json) (now : String) :
    (isOkE (item.getKey "track") = false → isOkE (normalizeItem item now) = false) ∧
    (isOkE (item.getKey "played_at") = false → isOkE (normalizeItem item now) = false) ∧
    (∀ track, item.getKey "track" = .ok track →
      isOkE (track.getKey "album") = false → isOkE (normalizeItem item now) = false) ∧
    (∀ track artists, item.getKey "track" = .ok track →
      track.getKey "artists" = .ok artists →
      isOkE (artists.getIdx 0) = false → isOkE (normalizeItem item now) = false) ∧
    (∀ pre post : List Json, isOkE (normalizeItem item now) = false →
      isOkE (normalizeAll (pre ++ item :: post) now) = false) := by
  refine ⟨?_, ?_, ?_, ?_, ?_⟩
  · intro h
    unfold normalizeItem
    cases hx : item.getKey "track" with
    | error e => simp [hx, isOkE]
    | ok t => rw [hx] at h; simp [isOkE] at h
  · intro h
    unfold normalizeItem
    repeat' split
    all_goals simp_all [isOkE]
  · intro track htrack h
    unfold normalizeItem
    rw [htrack]
    repeat' split
    all_goals simp_all [isOkE]
  · intro track artists htrack hartists h
    unfold normalizeItem
    rw [htrack]
    repeat' split
    all_goals simp_all [isOkE]
  · intro pre post h
    exact normalizeAll_error_of_mem now pre post item h

/-- Witness for C5: an item with no `track` key fails to normalize. -/
theorem C5_normalization_error_propagation_witness :
    isOkE (normalizeItem (Json.obj [("played_at", Json.str "2024-01-02T13:45:00Z")])
      "2024-06-01T00:00:00") = false :=
  (C5_normalization_error_propagation
    (Json.obj [("played_at", Json.str "2024-01-02T13:45:00Z")]) "2024-06-01T00:00:00").1
    (by decide)

/-- Claim C6: when either required environment variable is absent, the
handler raises before any external call — no Parameter Store call, no API
call, no storage write. -/
theorem C6_missing_config_aborts (inp : HandlerInput)
    (h : inp.parameterPathVar = none ∨ inp.s3BucketVar = none) :
    (∃ e, (lambda_handler inp).1 = .error e) ∧
    (lambda_handler inp).2.ssmCalls = 0 ∧
    (lambda_handler inp).2.apiCalls = 0 ∧
    (lambda_handler inp).2.s3Objects = [] := by
  unfold lambda_handler
  rcases h with h | h
  · rw [h]
    exact ⟨⟨_, rfl⟩, rfl, rfl, rfl⟩
  · cases hp : inp.parameterPathVar with
    | none => exact ⟨⟨_, rfl⟩, rfl, rfl, rfl⟩
    | some pp =>
      rw [h]
      exact ⟨⟨_, rfl⟩, rfl, rfl, rfl⟩

/-- Witness for C6: a fully-formed input missing only `S3_BUCKET`. -/
theorem C6_missing_config_aborts_witness :
    (∃ e, (lambda_handler { mkInput (.ok (Json.obj [("items", Json.arr [sampleItem])]))
        true true with s3BucketVar := none }).1 = .error e) ∧
    (lambda_handler { mkInput (.ok (Json.obj [("items", Json.arr [sampleItem])]))
        true true with s3BucketVar := none }).2.ssmCalls = 0 ∧
    (lambda_handler { mkInput (.ok (Json.obj [("items", Json.arr [sampleItem])]))
        true true with s3BucketVar := none }).2.apiCalls = 0 ∧
    (lambda_handler { mkInput (.ok (Json.obj [("items", Json.arr [sampleItem])]))
        true true with s3BucketVar := none }).2.s3Objects = [] :=
  C6_missing_config_aborts _ (Or.inr rfl)

/-- Claim C9: whenever the handler returns (rather than raising), the
returned status code is 200 — there is no non-200 response, even when the
API call failed or both writes failed. -/
theorem C9_status_always_200 (inp : HandlerInput) (r : LambdaResponse)
    (h : (lambda_handler inp).1 = .ok r) : r.statusCode = 200 := by
  unfold lambda_handler at h
  repeat' split at h
  all_goals dsimp only [] at h
  all_goals repeat' split at h
  all_goals simp_all
  all_goals (cases h; rfl)

/-- Witness for C9: a concrete run that returns normally has status 200. -/
theorem C9_status_always_200_witness :
    (⟨200, noDataBody⟩ : LambdaResponse).statusCode = 200 :=
  C9_status_always_200 (mkInput (.error "ConnectionError") true true) ⟨200, noDataBody⟩ rfl

/-- Claim C8: a run whose fetch yields zero records — zero API items or a
caught API failure — performs no storage write and returns the
success-shaped no-new-data response. -/
theorem C8_empty_fetch_no_writes (inp : HandlerInput) (pp b : String)
    (params : List (String × String))
    (hpp : inp.parameterPathVar = some pp) (hb : inp.s3BucketVar = some b)
    (hssm : inp.ssmResult = .ok params) (hsec : secretsComplete params = true)
    (hempty : get_recent_tracks inp.apiResult inp.now = []) :
    (lambda_handler inp).1 = .ok ⟨200, noDataBody⟩ ∧
    (lambda_handler inp).2.s3Objects = [] := by
  unfold lambda_handler
  rw [hpp, hb, hssm]
  simp [hsec, hempty]

/-- Witness for C8: a caught API failure yields the no-data response and no
writes. -/
theorem C8_empty_fetch_no_writes_witness :
    (lambda_handler (mkInput (.error "ConnectionError") true true)).1
      = .ok ⟨200, noDataBody⟩ ∧
    (lambda_handler (mkInput (.error "ConnectionError") true true)).2.s3Objects = [] :=
  C8_empty_fetch_no_writes (mkInput (.error "ConnectionError") true true)
    "/spotify" "bucket-1" _ rfl rfl rfl (by decide) rfl

/-- Claim C4: when the fetch produced records and exactly one of the two
storage writes succeeds, the run does not return the success report (it
returns the distinct fallback response), and the object written by the
succeeded call is still present in storage — there is no rollback. -/
theorem C4_partial_write_no_rollback (inp : HandlerInput) (pp b : String)
    (params : List (String × String))
    (hpp : inp.parameterPathVar = some pp) (hb : inp.s3BucketVar = some b)
    (hssm : inp.ssmResult = .ok params) (hsec : secretsComplete params = true)
    (hne : (get_recent_tracks inp.apiResult inp.now).isEmpty = false)
    (hone : inp.gluePutSucceeds ≠ inp.regularPutSucceeds) :
    (lambda_handler inp).1 = .ok ⟨200, noDataBody⟩ ∧
    noDataBody ≠ successBody ∧
    (inp.gluePutSucceeds = true →
      (lambda_handler inp).2.s3Objects =
        [⟨b, glue_file_name "raw/historial" inp.datePartition inp.timestamp,
          jsonl_content (get_recent_tracks inp.apiResult inp.now)⟩]) ∧
    (inp.regularPutSucceeds = true →
      (lambda_handler inp).2.s3Objects =
        [⟨b, regular_file_name "processed/historial" inp.timestamp,
          regular_json_content (get_recent_tracks inp.apiResult inp.now)⟩]) := by
  have hbody : noDataBody ≠ successBody := by decide
  unfold lambda_handler
  rw [hpp, hb, hssm]
  cases hg : inp.gluePutSucceeds <;> cases hr : inp.regularPutSucceeds
  · exact absurd (hg.trans hr.symm) hone
  · refine ⟨?_, hbody, ?_, ?_⟩
    · simp [hsec, hne, save_json_for_glue, save_regular_json, upload_string_to_s3, hg, hr]
    · intro hcontra; simp at hcontra
    · intro _
      simp [hsec, hne, save_json_for_glue, save_regular_json, upload_string_to_s3, hg, hr]
  · refine ⟨?_, hbody, ?_, ?_⟩
    · simp [hsec, hne, save_json_for_glue, save_regular_json, upload_string_to_s3, hg, hr]
    · intro _
      simp [hsec, hne, save_json_for_glue, save_regular_json, upload_string_to_s3, hg, hr]
    · intro hcontra; simp at hcontra
  · exact absurd (hg.trans hr.symm) hone

/-- Witness for C4: a one-item fetch where the JSONL write succeeds and the
human-readable write fails. -/
theorem C4_partial_write_no_rollback_witness :
    (lambda_handler (mkInput (.ok (Json.obj [("items", Json.arr [sampleItem])]))
        true false)).1 = .ok ⟨200, noDataBody⟩ ∧
    noDataBody ≠ successBody ∧
    ((mkInput (.ok (Json.obj [("items", Json.arr [sampleItem])])) true false).gluePutSucceeds
        = true →
      (lambda_handler (mkInput (.ok (Json.obj [("items", Json.arr [sampleItem])]))
          true false)).2.s3Objects =
        [⟨"bucket-1",
          glue_file_name "raw/historial"
            (mkInput (.ok (Json.obj [("items", Json.arr [sampleItem])])) true false).datePartition
            (mkInput (.ok (Json.obj [("items", Json.arr [sampleItem])])) true false).timestamp,
          jsonl_content (get_recent_tracks
            (mkInput (.ok (Json.obj [("items", Json.arr [sampleItem])])) true false).apiResult
            (mkInput (.ok (Json.obj [("items", Json.arr [sampleItem])])) true false).now)⟩]) ∧
    ((mkInput (.ok (Json.obj [("items", Json.arr [sampleItem])])) true false).regularPutSucceeds
        = true →
      (lambda_handler (mkInput (.ok (Json.obj [("items", Json.arr [sampleItem])]))
          true false)).2.s3Objects =
        [⟨"bucket-1",
          regular_file_name "processed/historial"
            (mkInput (.ok (Json.obj [("items", Json.arr [sampleItem])])) true false).timestamp,
          regular_json_content (get_recent_tracks
            (mkInput (.ok (Json.obj [("items", Json.arr [sampleItem])])) true false).apiResult
            (mkInput (.ok (Json.obj [("items", Json.arr [sampleItem])])) true false).now)⟩]) :=
  C4_partial_write_no_rollback
    (mkInput (.ok (Json.obj [("items", Json.arr [sampleItem])])) true false)
    "/spotify" "bucket-1" _ rfl rfl rfl (by decide) (by decide) (by decide)

/-- Claim C10: the Collector preserves order — the `i`-th normalized record
comes from the `i`-th API item; the JSONL body is exactly the per-record
JSON strings joined by newlines in that list order (each line newline-free,
so one object per line); and the pretty-printed body is the rendering of
the JSON array of the records in that same order. -/
theorem C10_order_preserved (items : List Json) (now : String)
    (hvalid : ∀ it ∈ items, isOkE (normalizeItem it now) = true) :
    (get_recent_tracks (.ok (Json.obj [("items", Json.arr items)])) now).length
      = items.length ∧
    (∀ (i : Nat) (hi : i < items.length)
        (hr : i < (get_recent_tracks (.ok (Json.obj [("items", Json.arr items)])) now).length),
      normalizeItem (items.get ⟨i, hi⟩) now
        = .ok ((get_recent_tracks (.ok (Json.obj [("items", Json.arr items)])) now).get
            ⟨i, hr⟩)) ∧
    (∀ recs : List PlayRecord,
      jsonl_content recs = joinWith "\n" (recs.map (fun t => Json.render (recordToJson t))) ∧
      regular_json_content recs = Json.renderPretty 0 (Json.arr (recs.map recordToJson))) ∧
    (∀ (recs : List PlayRecord) (i : Nat) (hi : i < recs.length)
        (hj : i < (recs.map (fun t => Json.render (recordToJson t))).length),
      (recs.map (fun t => Json.render (recordToJson t))).get ⟨i, hj⟩
        = Json.render (recordToJson (recs.get ⟨i, hi⟩))) ∧
    (∀ (recs : List PlayRecord) (i : Nat) (hi : i < recs.length)
        (hj : i < (recs.map recordToJson).length),
      (recs.map recordToJson).get ⟨i, hj⟩ = recordToJson (recs.get ⟨i, hi⟩)) ∧
    (∀ r : PlayRecord, noNewlineB (Json.render (recordToJson r)) = true) := by
  obtain ⟨recs, hrecs⟩ := normalizeAll_ok now items hvalid
  rw [get_recent_tracks_items items now recs hrecs]
  refine ⟨normalizeAll_length now items recs hrecs, ?_, ?_, ?_, ?_, ?_⟩
  · intro i hi hr
    exact normalizeAll_get now items recs hrecs i hi hr
  · intro l
    exact ⟨rfl, rfl⟩
  · intro l i hi hj
    simp [List.getElem_map]
  · intro l i hi hj
    simp [List.getElem_map]
  · intro r
    exact render_noNewline (recordToJson r)

/-- Witness for C10: the two-item response, checked at both indices, with
the serialization equations at the resulting record list. -/
theorem C10_order_preserved_witness :
    (get_recent_tracks (.ok (Json.obj [("items", Json.arr [sampleItem, sampleItem2])]))
        "2024-06-01T00:00:00").length = [sampleItem, sampleItem2].length ∧
    normalizeItem ([sampleItem, sampleItem2].get ⟨0, by decide⟩) "2024-06-01T00:00:00"
      = .ok ((get_recent_tracks (.ok (Json.obj [("items", Json.arr [sampleItem, sampleItem2])]))
          "2024-06-01T00:00:00").get ⟨0, by decide⟩) ∧
    normalizeItem ([sampleItem, sampleItem2].get ⟨1, by decide⟩) "2024-06-01T00:00:00"
      = .ok ((get_recent_tracks (.ok (Json.obj [("items", Json.arr [sampleItem, sampleItem2])]))
          "2024-06-01T00:00:00").get ⟨1, by decide⟩) ∧
    (jsonl_content (get_recent_tracks
        (.ok (Json.obj [("items", Json.arr [sampleItem, sampleItem2])])) "2024-06-01T00:00:00")
      = joinWith "\n" ((get_recent_tracks
          (.ok (Json.obj [("items", Json.arr [sampleItem, sampleItem2])]))
          "2024-06-01T00:00:00").map (fun t => Json.render (recordToJson t))) ∧
     regular_json_content (get_recent_tracks
        (.ok (Json.obj [("items", Json.arr [sampleItem, sampleItem2])])) "2024-06-01T00:00:00")
      = Json.renderPretty 0 (Json.arr ((get_recent_tracks
          (.ok (Json.obj [("items", Json.arr [sampleItem, sampleItem2])]))
          "2024-06-01T00:00:00").map recordToJson))) ∧
    noNewlineB (Json.render (recordToJson (mkRecord "t1"))) = true := by
  have h := C10_order_preserved [sampleItem, sampleItem2] "2024-06-01T00:00:00" (by decide)
  exact ⟨h.1, h.2.1 0 (by decide) (by decide), h.2.1 1 (by decide) (by decide),
    h.2.2.1 _, h.2.2.2.2.2 (mkRecord "t1")⟩
